import Mathlib

/-!
# Verification of the nkAzureBlobber client

A shallow embedding of `src/nkAzureBlobber.py`: the MSAL-backed token
credential (`MSALTokenCredential.get_token`) and the blob container client
(`AzureBlobContainerClient`) with its mutating container-name override.

The remote blob store and the identity provider are external collaborators;
they are modelled as explicit parameters (an association list of blobs, and a
function from the requested scopes to the provider's JSON-like response).
Byte payloads are lists of naturals; Python strings are lists of Unicode
codepoints, and `str.encode("utf-8")` / `bytes.decode("utf-8")` are embedded
as executable UTF-8 encode/decode functions on those lists.
-/

namespace NkAzureBlobber

/-- The error channel of the client: Python exceptions surfaced to callers.
`valueError` is the `ValueError` raised by `check_container_name`;
`resourceNotFound` / `resourceExists` are the storage SDK errors for a missing
blob and a conditional-write conflict; `runtimeError` is the `RuntimeError`
raised by `MSALTokenCredential.get_token`; `unicodeDecodeError` is the decode
failure of `bytes.decode`. -/
inductive BlobError
  | valueError (msg : String)
  | resourceNotFound
  | resourceExists
  | runtimeError (msg : String)
  | unicodeDecodeError
  deriving DecidableEq, Repr

/-- Line 20: the fixed scope for Azure Storage. -/
def STORAGE_SCOPE : String := "https://storage.azure.com/.default"

/-- `azure.core.credentials.AccessToken`: token string and absolute expiry
(Unix timestamp, seconds). -/
structure AccessToken where
  token : String
  expires_on : Nat
  deriving DecidableEq, Repr

/-- The JSON-like result returned by `msal`'s `acquire_token_for_client`:
the fields `get_token` reads from it. -/
structure MsalResult where
  access_token : Option String
  expires_in : Option Nat
  error_description : Option String
  deriving DecidableEq, Repr

/-- The message of the `RuntimeError` raised when the result has no
`access_token` field: `result.get("error_description", result)` falls back to
showing the whole result. -/
def tokenFailureMsg (result : MsalResult) : String :=
  "Failed to acquire token: " ++
    (match result.error_description with
     | some d => d
     | none => reprStr result)

/-- The `scopes=[STORAGE_SCOPE]` argument that `get_token` passes to
`acquire_token_for_client`, regardless of the `*scopes` it was called with
(line 46). -/
def acquire_scopes (scopes : List String) : List String :=
  [STORAGE_SCOPE]

/-- `MSALTokenCredential.get_token` (lines 45-53). `provider` stands for the
identity provider behind `acquire_token_for_client`, mapping the requested
scopes to its response; `now` is `int(time.time())` at the moment of the call.
Raises `RuntimeError` when the response has no `access_token`; otherwise
returns an `AccessToken` whose `expires_on` is `now` plus the response's
`expires_in`, defaulting to 3600. -/
def get_token (provider : List String → MsalResult) (scopes : List String)
    (now : Nat) : Except BlobError AccessToken :=
  let result := provider (acquire_scopes scopes)
  match result.access_token with
  | none => .error (.runtimeError (tokenFailureMsg result))
  | some tok => .ok ⟨tok, now + result.expires_in.getD 3600⟩

/-- The in-memory token cache of the MSAL `ConfidentialClientApplication`. -/
structure TokenCacheState where
  cached : Option AccessToken
  deriving DecidableEq, Repr

/-- Modelled from the spec: the token caching performed inside msal's
`acquire_token_for_client`, which is not part of this repository's sources
(only its call site at line 46 is). Per spec §4.1: if no token is cached or
the cached token's `expires_at` has passed, perform one identity-provider
request, convert the relative `expires_in` (default 3600 s) to an absolute
`expires_at` at acquisition time, cache and return the token; otherwise return
the cached token with no network call. `timedProvider` maps the acquisition
time to the provider's response; the returned `Nat` counts the
identity-provider requests made by this call. -/
def get_valid_token (timedProvider : Nat → MsalResult) (st : TokenCacheState)
    (now : Nat) : TokenCacheState × Except BlobError AccessToken × Nat :=
  let refresh : TokenCacheState × Except BlobError AccessToken × Nat :=
    let result := timedProvider now
    match result.access_token with
    | none => (st, .error (.runtimeError (tokenFailureMsg result)), 1)
    | some t =>
      let tok : AccessToken := ⟨t, now + result.expires_in.getD 3600⟩
      (⟨some tok⟩, .ok tok, 1)
  match st.cached with
  | some tok => if now < tok.expires_on then (st, .ok tok, 0) else refresh
  | none => refresh

/-- The remote blob store, modelled as an association list from
(container name, blob name) to byte payload. -/
def Store : Type := List ((String × String) × List Nat)

/-- Look up the payload of blob `b` in container `c`. -/
def Store.lookup : Store → String → String → Option (List Nat)
  | [], _, _ => none
  | (k, d) :: rest, c, b => if k = (c, b) then some d else Store.lookup rest c b

/-- Effect of `upload_blob` on the store: (re)bind blob `b` of container `c`
to payload `d`. -/
def Store.insert (st : Store) (c b : String) (d : List Nat) : Store :=
  ((c, b), d) :: st.filter (fun e => e.1 ≠ (c, b))

/-- Effect of `delete_blob` on the store: remove blob `b` of container `c`. -/
def Store.remove (st : Store) (c b : String) : Store :=
  st.filter (fun e => e.1 ≠ (c, b))

/-- The names of the blobs of container `c` whose name starts with
`name_starts_with`, as produced by the SDK's `list_blobs`. -/
def Store.blobNames (st : Store) (c : String) (name_starts_with : String) :
    List String :=
  (st.filter (fun e => e.1.1 = c ∧ e.1.2.startsWith name_starts_with)).map
    (fun e => e.1.2)

/-- The mutable state of an `AzureBlobContainerClient`: `self.container_name`
(a Python `None` or `str`) and `self._container` (`None`, or the container
client obtained from `get_container_client`, modelled by the container name it
targets). -/
structure ClientState where
  container_name : Option String
  container : Option String
  deriving DecidableEq, Repr

/-- `__init__` (lines 62-91): after construction, `self.container_name` is the
`container_name` argument (default `None`), and `self._container` is a client
for that container when one was given, else `None`. -/
def initClientState (container_name : Option String) : ClientState :=
  ⟨container_name, container_name⟩

/-- `check_container_name` (lines 93-98): when the per-call `container_name`
is not `None`, overwrite `self.container_name` and `self._container` with it;
then raise `ValueError` when `self._container` is still `None`. On success,
returns the updated state together with the container name that
`self._container` now targets (which the caller's subsequent
`self._container.…` calls use). -/
def check_container_name (s : ClientState) (container_name : Option String) :
    Except BlobError (ClientState × String) :=
  let s1 : ClientState :=
    match container_name with
    | some c => { container_name := some c, container := some c }
    | none => s
  match s1.container with
  | none => .error (.valueError "Container name is required")
  | some c => .ok (s1, c)

/-- `read` (lines 101-106): resolve the container, download the blob's bytes;
the SDK raises `ResourceNotFoundError` when the blob is absent. Returns the
client state after the call together with the bytes. -/
def read (st : Store) (s : ClientState) (blob_name : String)
    (container_name : Option String := none) :
    Except BlobError (ClientState × List Nat) :=
  match check_container_name s container_name with
  | .error e => .error e
  | .ok (s1, c) =>
    match st.lookup c blob_name with
    | none => .error .resourceNotFound
    | some d => .ok (s1, d)

/-- A Python value that is either `bytes` or `str`; a `str` is its list of
Unicode codepoints. -/
inductive Payload
  | bytes (b : List Nat)
  | str (cs : List Nat)
  deriving DecidableEq, Repr

/-- `str.encode("utf-8")` on a list of codepoints: the UTF-8 byte sequence of
one codepoint. -/
def utf8EncodeChar (c : Nat) : List Nat :=
  if c < 0x80 then [c]
  else if c < 0x800 then [0xC0 + c / 64, 0x80 + c % 64]
  else if c < 0x10000 then
    [0xE0 + c / 4096, 0x80 + c / 64 % 64, 0x80 + c % 64]
  else
    [0xF0 + c / 262144, 0x80 + c / 4096 % 64, 0x80 + c / 64 % 64, 0x80 + c % 64]

/-- `str.encode("utf-8")`: concatenation of the per-codepoint encodings. -/
def utf8Encode : List Nat → List Nat
  | [] => []
  | c :: cs => utf8EncodeChar c ++ utf8Encode cs

/-- A UTF-8 continuation byte. -/
def contByte (b : Nat) : Prop := 0x80 ≤ b ∧ b < 0xC0

instance (b : Nat) : Decidable (contByte b) := by
  unfold contByte; infer_instance

/-- State of the incremental strict UTF-8 decoder: completed codepoints in
reverse order, the number of continuation bytes still expected, the partial
codepoint value, the minimum admissible final value (to reject overlong
encodings), and whether decoding is still on a valid path. The invariant
`pending = 0 → val = 0 ∧ min = 0` holds along every run from `utf8InitState`. -/
structure Utf8State where
  acc : List Nat
  pending : Nat
  val : Nat
  min : Nat
  ok : Bool
  deriving DecidableEq, Repr

/-- The decoder state before any byte has been consumed. -/
def utf8InitState : Utf8State := ⟨[], 0, 0, 0, true⟩

/-- Consume one byte of a strict UTF-8 stream: classify a lead byte (rejecting
`0x80`–`0xC1` and `0xF5`–`0xFF` outright), or fold a continuation byte into the
partial value, rejecting overlong encodings, surrogates and codepoints beyond
U+10FFFF when the sequence completes. -/
def utf8Step (s : Utf8State) (b : Nat) : Utf8State :=
  if s.ok then
    if s.pending = 0 then
      if b < 0x80 then { s with acc := b :: s.acc }
      else if b < 0xC2 then { s with ok := false }
      else if b < 0xE0 then { s with pending := 1, val := b - 0xC0, min := 0x80 }
      else if b < 0xF0 then { s with pending := 2, val := b - 0xE0, min := 0x800 }
      else if b < 0xF5 then
        { s with pending := 3, val := b - 0xF0, min := 0x10000 }
      else { s with ok := false }
    else
      if contByte b then
        if s.pending = 1 then
          if s.val * 64 + (b - 0x80) < s.min ∨
              (0xD800 ≤ s.val * 64 + (b - 0x80) ∧
                s.val * 64 + (b - 0x80) < 0xE000) ∨
              0x110000 ≤ s.val * 64 + (b - 0x80) then
            { s with ok := false }
          else
            { acc := (s.val * 64 + (b - 0x80)) :: s.acc, pending := 0, val := 0,
              min := 0, ok := true }
        else { s with pending := s.pending - 1, val := s.val * 64 + (b - 0x80) }
      else { s with ok := false }
  else s

/-- `bytes.decode("utf-8")`: strict UTF-8 decoding of a byte list into
codepoints, `none` on any invalid sequence (Python raises
`UnicodeDecodeError`): stray continuation bytes, truncated or incomplete
sequences, overlong encodings, surrogates and codepoints beyond U+10FFFF are
all rejected. -/
def utf8Decode (bs : List Nat) : Option (List Nat) :=
  let s := bs.foldl utf8Step utf8InitState
  if s.ok ∧ s.pending = 0 then some s.acc.reverse else none

/-- `read_text` (lines 108-110): `self.read(blob_name)` — with no container
override — then `.decode(encoding)` with the default `"utf-8"`. -/
def read_text (st : Store) (s : ClientState) (blob_name : String) :
    Except BlobError (ClientState × List Nat) :=
  match read st s blob_name none with
  | .error e => .error e
  | .ok (s1, bs) =>
    match utf8Decode bs with
    | none => .error .unicodeDecodeError
    | some cs => .ok (s1, cs)

/-- `write` (lines 112-118): resolve the container, UTF-8-encode a `str`
payload, then `upload_blob(data, overwrite=overwrite)`; the SDK raises
`ResourceExistsError` when `overwrite` is false and the blob already exists.
Returns the client state after the call and the new store. -/
def write (st : Store) (s : ClientState) (blob_name : String) (data : Payload)
    (overwrite : Bool := true) (container_name : Option String := none) :
    Except BlobError (ClientState × Store) :=
  match check_container_name s container_name with
  | .error e => .error e
  | .ok (s1, c) =>
    let bs : List Nat :=
      match data with
      | .str cs => utf8Encode cs
      | .bytes b => b
    if overwrite = false ∧ (st.lookup c blob_name).isSome then
      .error .resourceExists
    else
      .ok (s1, st.insert c blob_name bs)

/-- `update` (lines 125-127): exactly `self.write(blob_name, data,
overwrite=True)` with no container override. -/
def update (st : Store) (s : ClientState) (blob_name : String)
    (data : Payload) : Except BlobError (ClientState × Store) :=
  write st s blob_name data true none

/-- `delete` (lines 129-133): resolve the container, then `delete_blob()`;
the SDK raises `ResourceNotFoundError` when the blob is absent. -/
def delete (st : Store) (s : ClientState) (blob_name : String)
    (container_name : Option String := none) :
    Except BlobError (ClientState × Store) :=
  match check_container_name s container_name with
  | .error e => .error e
  | .ok (s1, c) =>
    match st.lookup c blob_name with
    | none => .error .resourceNotFound
    | some _ => .ok (s1, st.remove c blob_name)

/-- `list_blobs` (lines 135-166) on its `include_properties=False` path:
resolve the container, then list the names of the blobs whose name starts
with `name_starts_with`. -/
def list_blobs (st : Store) (s : ClientState) (name_starts_with : String := "")
    (container_name : Option String := none) :
    Except BlobError (ClientState × List String) :=
  match check_container_name s container_name with
  | .error e => .error e
  | .ok (s1, c) => .ok (s1, st.blobNames c name_starts_with)

/-- `exists` (lines 172-175): resolve the container, then
`get_blob_client(blob_name).exists()`; absence is a normal `false`, not an
error. -/
def existsBlob (st : Store) (s : ClientState) (blob_name : String)
    (container_name : Option String := none) :
    Except BlobError (ClientState × Bool) :=
  match check_container_name s container_name with
  | .error e => .error e
  | .ok (s1, c) => .ok (s1, (st.lookup c blob_name).isSome)

/-- A Unicode scalar value: what a codepoint of a Python `str` must be for
`str.encode("utf-8")` to succeed (no lone surrogates, below U+110000). -/
def validCodepoint (c : Nat) : Prop :=
  c < 0x110000 ∧ (c < 0xD800 ∨ 0xE000 ≤ c)

instance (c : Nat) : Decidable (validCodepoint c) := by
  unfold validCodepoint; infer_instance

/-! ## Helper lemmas -/

/-- Running the decoder over the UTF-8 encoding of one valid codepoint, from a
state that is between characters, appends that codepoint and returns to the
between-characters state. -/
theorem utf8Step_encodeChar (c : Nat) (hc : validCodepoint c)
    (acc : List Nat) :
    (utf8EncodeChar c).foldl utf8Step ⟨acc, 0, 0, 0, true⟩ =
      ⟨c :: acc, 0, 0, 0, true⟩ := by
  obtain ⟨hlt, hs⟩ := hc
  rcases Nat.lt_or_ge c 0x80 with h1 | h1
  · simp only [utf8EncodeChar, if_pos h1, List.foldl_cons, List.foldl_nil,
      utf8Step, eq_self_iff_true, if_true, if_false, ite_true, ite_false]
  · rcases Nat.lt_or_ge c 0x800 with h2 | h2
    · have hb1 : ¬ (0xC0 + c / 64 < 0x80) := by omega
      have hb2 : ¬ (0xC0 + c / 64 < 0xC2) := by omega
      have hb3 : 0xC0 + c / 64 < 0xE0 := by omega
      have hA : 0xC0 + c / 64 - 0xC0 = c / 64 := by omega
      have hcb : contByte (0x80 + c % 64) := by unfold contByte; omega
      have hv : c / 64 * 64 + (0x80 + c % 64 - 0x80) = c := by omega
      have hcond : ¬(c < 0x80 ∨ (0xD800 ≤ c ∧ c < 0xE000) ∨ 0x110000 ≤ c) := by
        omega
      simp only [utf8EncodeChar, if_neg (by omega : ¬ c < 0x80), if_pos h2,
        List.foldl_cons, List.foldl_nil, utf8Step, hb1, hb2, hb3, hA, hcb,
        hv, hcond, eq_self_iff_true, if_true, if_false, ite_true,
          ite_false, (show (1 : Nat) ≠ 0 by omega), (show (2 : Nat) ≠ 0 by omega),
          (show (2 : Nat) ≠ 1 by omega), (show (3 : Nat) ≠ 0 by omega),
          (show (3 : Nat) ≠ 1 by omega), (show (2 : Nat) - 1 = 1 by omega),
          (show (3 : Nat) - 1 = 2 by omega)]
    · rcases Nat.lt_or_ge c 0x10000 with h3 | h3
      · have hb1 : ¬ (0xE0 + c / 4096 < 0x80) := by omega
        have hb2 : ¬ (0xE0 + c / 4096 < 0xC2) := by omega
        have hb3 : ¬ (0xE0 + c / 4096 < 0xE0) := by omega
        have hb4 : 0xE0 + c / 4096 < 0xF0 := by omega
        have hA : 0xE0 + c / 4096 - 0xE0 = c / 4096 := by omega
        have hcb1 : contByte (0x80 + c / 64 % 64) := by unfold contByte; omega
        have hcb2 : contByte (0x80 + c % 64) := by unfold contByte; omega
        have hv1 : c / 4096 * 64 + (0x80 + c / 64 % 64 - 0x80) = c / 64 := by
          omega
        have hv2 : c / 64 * 64 + (0x80 + c % 64 - 0x80) = c := by omega
        have hcond : ¬(c < 0x800 ∨ (0xD800 ≤ c ∧ c < 0xE000) ∨
            0x110000 ≤ c) := by omega
        simp only [utf8EncodeChar, if_neg (by omega : ¬ c < 0x80),
          if_neg (by omega : ¬ c < 0x800), if_pos h3, List.foldl_cons,
          List.foldl_nil, utf8Step, hb1, hb2, hb3, hb4, hA, hcb1, hcb2,
          hv1, hv2, hcond, eq_self_iff_true, if_true, if_false, ite_true,
          ite_false, (show (1 : Nat) ≠ 0 by omega), (show (2 : Nat) ≠ 0 by omega),
          (show (2 : Nat) ≠ 1 by omega), (show (3 : Nat) ≠ 0 by omega),
          (show (3 : Nat) ≠ 1 by omega), (show (2 : Nat) - 1 = 1 by omega),
          (show (3 : Nat) - 1 = 2 by omega)]
      · have hb1 : ¬ (0xF0 + c / 262144 < 0x80) := by omega
        have hb2 : ¬ (0xF0 + c / 262144 < 0xC2) := by omega
        have hb3 : ¬ (0xF0 + c / 262144 < 0xE0) := by omega
        have hb4 : ¬ (0xF0 + c / 262144 < 0xF0) := by omega
        have hb5 : 0xF0 + c / 262144 < 0xF5 := by omega
        have hA : 0xF0 + c / 262144 - 0xF0 = c / 262144 := by omega
        have hcb1 : contByte (0x80 + c / 4096 % 64) := by
          unfold contByte; omega
        have hcb2 : contByte (0x80 + c / 64 % 64) := by unfold contByte; omega
        have hcb3 : contByte (0x80 + c % 64) := by unfold contByte; omega
        have hv1 : c / 262144 * 64 + (0x80 + c / 4096 % 64 - 0x80) =
            c / 4096 := by omega
        have hv2 : c / 4096 * 64 + (0x80 + c / 64 % 64 - 0x80) = c / 64 := by
          omega
        have hv3 : c / 64 * 64 + (0x80 + c % 64 - 0x80) = c := by omega
        have hcond : ¬(c < 0x10000 ∨ (0xD800 ≤ c ∧ c < 0xE000) ∨
            0x110000 ≤ c) := by omega
        simp only [utf8EncodeChar, if_neg (by omega : ¬ c < 0x80),
          if_neg (by omega : ¬ c < 0x800), if_neg (by omega : ¬ c < 0x10000),
          List.foldl_cons, List.foldl_nil, utf8Step, hb1, hb2, hb3, hb4, hb5,
          hA, hcb1, hcb2, hcb3, hv1, hv2, hv3, hcond, eq_self_iff_true, if_true, if_false, ite_true,
          ite_false, (show (1 : Nat) ≠ 0 by omega), (show (2 : Nat) ≠ 0 by omega),
          (show (2 : Nat) ≠ 1 by omega), (show (3 : Nat) ≠ 0 by omega),
          (show (3 : Nat) ≠ 1 by omega), (show (2 : Nat) - 1 = 1 by omega),
          (show (3 : Nat) - 1 = 2 by omega)]

/-- Running the decoder over the UTF-8 encoding of a list of valid codepoints
appends them all (in reverse) to the accumulator. -/
theorem utf8Encode_foldl (cs : List Nat) (h : ∀ c ∈ cs, validCodepoint c)
    (acc : List Nat) :
    (utf8Encode cs).foldl utf8Step ⟨acc, 0, 0, 0, true⟩ =
      ⟨cs.reverse ++ acc, 0, 0, 0, true⟩ := by
  induction cs generalizing acc with
  | nil => simp [utf8Encode]
  | cons c cs ih =>
    rw [utf8Encode, List.foldl_append,
      utf8Step_encodeChar c (h c (List.mem_cons_self c cs)),
      ih (fun x hx => h x (List.mem_cons_of_mem _ hx))]
    simp

/-- Round-trip: strict UTF-8 decoding inverts encoding on every list of valid
codepoints. -/
theorem utf8Decode_utf8Encode (cs : List Nat)
    (h : ∀ c ∈ cs, validCodepoint c) :
    utf8Decode (utf8Encode cs) = some cs := by
  simp only [utf8Decode, utf8InitState]
  rw [utf8Encode_foldl cs h []]
  simp

/-- A per-call override that is present resolves and mutates in one step. -/
theorem check_container_name_some (s : ClientState) (c : String) :
    check_container_name s (some c) = .ok (⟨some c, some c⟩, c) := rfl

/-- With no override, a resolved client state passes the check unchanged. -/
theorem check_container_name_resolved (s : ClientState) (c : String)
    (h : s.container = some c) :
    check_container_name s none = .ok (s, c) := by
  unfold check_container_name
  simp only [h]

/-- Reading back the key just inserted returns the inserted payload. -/
theorem Store.lookup_insert_self (st : Store) (c b : String) (d : List Nat) :
    (st.insert c b d).lookup c b = some d := by
  unfold Store.insert Store.lookup
  simp

/-! ## Claims -/

/-- C1: every data operation (read, write, delete, list_blobs, exists) called
with a non-empty per-call `container_name` uses that container for this call —
it behaves exactly as the same call on a client whose default is that
container — and mutates the client's default container name to it (the state
after `check_container_name` has `container_name = some c`), so every
subsequent call with no override uses the new container. -/
theorem containerOverride_mutates_default (st : Store) (s : ClientState)
    (c blob_name nsw : String) (data : Payload) (ow : Bool)
    (hc : c ≠ "") :
    check_container_name s (some c) = .ok (⟨some c, some c⟩, c) ∧
    read st s blob_name (some c) = read st ⟨some c, some c⟩ blob_name none ∧
    write st s blob_name data ow (some c) =
      write st ⟨some c, some c⟩ blob_name data ow none ∧
    delete st s blob_name (some c) =
      delete st ⟨some c, some c⟩ blob_name none ∧
    list_blobs st s nsw (some c) = list_blobs st ⟨some c, some c⟩ nsw none ∧
    existsBlob st s blob_name (some c) =
      existsBlob st ⟨some c, some c⟩ blob_name none :=
  ⟨rfl, rfl, rfl, rfl, rfl, rfl⟩

/-- Witness for C1 at a concrete non-empty container name. -/
theorem containerOverride_mutates_default_witness :
    ("docs" : String) ≠ "" ∧
    check_container_name ⟨none, none⟩ (some "docs") =
      .ok (⟨some "docs", some "docs"⟩, "docs") := by
  have h := containerOverride_mutates_default [] ⟨none, none⟩ "docs" "b" ""
    (.bytes []) true (by decide)
  exact ⟨by decide, h.1⟩

/-- C3: on a client constructed with no default container name, every data
operation called with no per-call `container_name` fails with the
`ValueError` from `check_container_name` rather than silently doing
nothing. -/
theorem missingContainer_raises (st : Store) (blob_name nsw : String)
    (data : Payload) (ow : Bool) :
    read st (initClientState none) blob_name none =
      .error (.valueError "Container name is required") ∧
    write st (initClientState none) blob_name data ow none =
      .error (.valueError "Container name is required") ∧
    delete st (initClientState none) blob_name none =
      .error (.valueError "Container name is required") ∧
    list_blobs st (initClientState none) nsw none =
      .error (.valueError "Container name is required") ∧
    existsBlob st (initClientState none) blob_name none =
      .error (.valueError "Container name is required") :=
  ⟨rfl, rfl, rfl, rfl, rfl⟩

/-- C9: `update` is observationally identical to `write` with
`overwrite=True`: the same function of the store and client state, hence the
same result, the same errors, and the same effect on both. -/
theorem update_eq_write_overwrite (st : Store) (s : ClientState)
    (blob_name : String) (data : Payload) :
    update st s blob_name data = write st s blob_name data true none := rfl

/-- C10: the empty string as per-call `container_name` is a present override,
not absence: the check replaces the default container name with `""` and no
data operation raises the missing-container `ValueError`, because the
override check tests only for `None`. -/
theorem emptyOverride_is_present (st : Store) (s : ClientState)
    (blob_name nsw msg : String) (data : Payload) (ow : Bool) :
    check_container_name s (some "") = .ok (⟨some "", some ""⟩, "") ∧
    read st s blob_name (some "") ≠ .error (.valueError msg) ∧
    write st s blob_name data ow (some "") ≠ .error (.valueError msg) ∧
    delete st s blob_name (some "") ≠ .error (.valueError msg) ∧
    list_blobs st s nsw (some "") ≠ .error (.valueError msg) ∧
    existsBlob st s blob_name (some "") ≠ .error (.valueError msg) := by
  refine ⟨rfl, ?_, ?_, ?_, ?_, ?_⟩
  · simp only [read, check_container_name_some]
    split <;> simp
  · simp only [write, check_container_name_some]
    split <;> simp
  · simp only [delete, check_container_name_some]
    split <;> simp
  · simp only [list_blobs, check_container_name_some]
    simp
  · simp only [existsBlob, check_container_name_some]
    simp

/-- C7: with a resolved container, `exists(blob_name)` returns `true` iff a
`read` of that name would succeed, and returns `false` — a normal result, not
an error — when the blob is absent. -/
theorem exists_iff_read_succeeds (st : Store) (s : ClientState)
    (blob_name c : String) (h : s.container = some c) :
    (existsBlob st s blob_name none = .ok (s, true) ↔
      ∃ d, read st s blob_name none = .ok (s, d)) ∧
    (st.lookup c blob_name = none →
      existsBlob st s blob_name none = .ok (s, false)) := by
  simp only [existsBlob, read, check_container_name_resolved s c h]
  cases hl : st.lookup c blob_name <;> simp [hl]

/-- Witness for C7 on a one-blob store: present blob, then absent blob. -/
theorem exists_iff_read_succeeds_witness :
    (⟨some "docs", some "docs"⟩ : ClientState).container = some "docs" ∧
    (existsBlob [(("docs", "a.txt"), [104])] ⟨some "docs", some "docs"⟩
        "a.txt" none = .ok (⟨some "docs", some "docs"⟩, true) ↔
      ∃ d, read [(("docs", "a.txt"), [104])] ⟨some "docs", some "docs"⟩
        "a.txt" none = .ok (⟨some "docs", some "docs"⟩, d)) := by
  have h := exists_iff_read_succeeds [(("docs", "a.txt"), [104])]
    ⟨some "docs", some "docs"⟩ "a.txt" "docs" rfl
  exact ⟨rfl, h.1⟩

/-- C8: with a resolved container, `write` of a string payload transmits its
UTF-8 encoding, and a subsequent `read_text` returns the same string; `write`
of a bytes payload stores those bytes, and a subsequent `read` returns them
unchanged. -/
theorem write_read_roundtrip (st : Store) (s : ClientState)
    (blob_name c : String) (cs p : List Nat)
    (h : s.container = some c)
    (hvalid : ∀ x ∈ cs, validCodepoint x) :
    write st s blob_name (.str cs) true none =
      .ok (s, st.insert c blob_name (utf8Encode cs)) ∧
    read_text (st.insert c blob_name (utf8Encode cs)) s blob_name =
      .ok (s, cs) ∧
    write st s blob_name (.bytes p) true none =
      .ok (s, st.insert c blob_name p) ∧
    read (st.insert c blob_name p) s blob_name none = .ok (s, p) := by
  refine ⟨?_, ?_, ?_, ?_⟩
  · simp [write, check_container_name_resolved s c h]
  · simp only [read_text, read, check_container_name_resolved s c h,
      Store.lookup_insert_self, utf8Decode_utf8Encode cs hvalid]
  · simp [write, check_container_name_resolved s c h]
  · simp only [read, check_container_name_resolved s c h,
      Store.lookup_insert_self]

/-- Witness for C8: writing the string "hi €" (codepoints
`[104, 105, 32, 8364]`) and reading it back on a concrete client and empty
store. -/
theorem write_read_roundtrip_witness :
    ((⟨some "docs", some "docs"⟩ : ClientState).container = some "docs" ∧
      ∀ x ∈ [104, 105, 32, 8364], validCodepoint x) ∧
    read_text (Store.insert [] "docs" "a.txt"
        (utf8Encode [104, 105, 32, 8364]))
      ⟨some "docs", some "docs"⟩ "a.txt" =
      .ok (⟨some "docs", some "docs"⟩, [104, 105, 32, 8364]) := by
  have h := write_read_roundtrip [] ⟨some "docs", some "docs"⟩ "a.txt" "docs"
    [104, 105, 32, 8364] [7] rfl (by decide)
  exact ⟨⟨rfl, by decide⟩, h.2.1⟩

/-- C4: on a successful acquisition, the token's `expires_on` is the absolute
time `now` plus the provider's `expires_in`, and `now + 3600` when the
provider omits `expires_in`. -/
theorem get_token_expires_on (provider : List String → MsalResult)
    (scopes : List String) (now : Nat) (tok : String)
    (h : (provider [STORAGE_SCOPE]).access_token = some tok) :
    get_token provider scopes now =
      .ok ⟨tok, now + (provider [STORAGE_SCOPE]).expires_in.getD 3600⟩ ∧
    ((provider [STORAGE_SCOPE]).expires_in = none →
      get_token provider scopes now = .ok ⟨tok, now + 3600⟩) := by
  constructor
  · simp only [get_token, acquire_scopes, h]
  · intro he
    simp only [get_token, acquire_scopes, h, he, Option.getD_none]

/-- Witness for C4 with a provider returning no `expires_in`. -/
theorem get_token_expires_on_witness :
    ((fun _ : List String => MsalResult.mk (some "tok") none none)
        [STORAGE_SCOPE]).access_token = some "tok" ∧
    get_token (fun _ => MsalResult.mk (some "tok") none none) [] 1000 =
      .ok ⟨"tok", 1000 + 3600⟩ := by
  have h := get_token_expires_on
    (fun _ => MsalResult.mk (some "tok") none none) [] 1000 "tok" rfl
  exact ⟨rfl, h.2 rfl⟩

/-- C5: `get_token` always issues the identity-provider request with the
single fixed storage scope, so for any two scope lists the issued request and
the returned result coincide: the behaviour does not depend on the `scopes`
argument. -/
theorem get_token_ignores_scopes (provider : List String → MsalResult)
    (scopes1 scopes2 : List String) (now : Nat) :
    acquire_scopes scopes1 = [STORAGE_SCOPE] ∧
    acquire_scopes scopes1 = acquire_scopes scopes2 ∧
    get_token provider scopes1 now = get_token provider scopes2 now :=
  ⟨rfl, rfl, rfl⟩

/-- C6: when the provider's response lacks the `access_token` field,
`get_token` fails with the `RuntimeError` built from that response, returned
unchanged to the caller. -/
theorem get_token_missing_token_fails (provider : List String → MsalResult)
    (scopes : List String) (now : Nat)
    (h : (provider [STORAGE_SCOPE]).access_token = none) :
    get_token provider scopes now =
      .error (.runtimeError (tokenFailureMsg (provider [STORAGE_SCOPE]))) := by
  simp only [get_token, acquire_scopes, h]

/-- Witness for C6 with a provider rejecting the credentials. -/
theorem get_token_missing_token_fails_witness :
    ((fun _ : List String => MsalResult.mk none none (some "bad client"))
        [STORAGE_SCOPE]).access_token = none ∧
    get_token (fun _ => MsalResult.mk none none (some "bad client")) [] 5 =
      .error (.runtimeError
        (tokenFailureMsg (MsalResult.mk none none (some "bad client")))) := by
  have h := get_token_missing_token_fails
    (fun _ => MsalResult.mk none none (some "bad client")) [] 5 rfl
  exact ⟨rfl, h⟩

/-- C2: from an empty cache, a first acquisition at `t0` performs one
identity-provider request and caches a token expiring at `t0 + e0`; a second
call at `t1` inside the validity window performs no further request (one in
total) and returns the cached token; a call at `t2` after expiry performs
exactly one additional request, and the refreshed token's expiry `t2 + e2` is
strictly later than the prior `t0 + e0`. -/
theorem token_reuse_and_refresh (timedProvider : Nat → MsalResult)
    (t0 t1 t2 e0 e2 : Nat) (tok0 tok2 : String)
    (ha0 : (timedProvider t0).access_token = some tok0)
    (he0 : (timedProvider t0).expires_in = some e0)
    (hvalid : t1 < t0 + e0)
    (hexp : t0 + e0 ≤ t2)
    (ha2 : (timedProvider t2).access_token = some tok2)
    (he2 : (timedProvider t2).expires_in = some e2)
    (hpos : 0 < e2) :
    get_valid_token timedProvider ⟨none⟩ t0 =
      (⟨some ⟨tok0, t0 + e0⟩⟩, .ok ⟨tok0, t0 + e0⟩, 1) ∧
    get_valid_token timedProvider ⟨some ⟨tok0, t0 + e0⟩⟩ t1 =
      (⟨some ⟨tok0, t0 + e0⟩⟩, .ok ⟨tok0, t0 + e0⟩, 0) ∧
    get_valid_token timedProvider ⟨some ⟨tok0, t0 + e0⟩⟩ t2 =
      (⟨some ⟨tok2, t2 + e2⟩⟩, .ok ⟨tok2, t2 + e2⟩, 1) ∧
    t0 + e0 < t2 + e2 := by
  refine ⟨?_, ?_, ?_, by omega⟩
  · simp only [get_valid_token, ha0, he0, Option.getD_some]
  · simp only [get_valid_token, if_pos hvalid]
  · simp only [get_valid_token, if_neg (by omega : ¬ t2 < t0 + e0), ha2, he2,
      Option.getD_some]

/-- Witness for C2: a provider issuing 100-second tokens, with calls at times
0 (fresh), 50 (within validity) and 150 (after expiry). -/
theorem token_reuse_and_refresh_witness :
    ((fun t : Nat => if t < 100 then MsalResult.mk (some "first") (some 100)
          none
        else MsalResult.mk (some "second") (some 100) none) 0).access_token =
      some "first" ∧
    (50 : Nat) < 0 + 100 ∧ (0 : Nat) + 100 ≤ 150 ∧ (0 : Nat) < 100 ∧
    get_valid_token
      (fun t : Nat => if t < 100 then MsalResult.mk (some "first") (some 100)
          none
        else MsalResult.mk (some "second") (some 100) none)
      ⟨some ⟨"first", 0 + 100⟩⟩ 150 =
      (⟨some ⟨"second", 150 + 100⟩⟩, .ok ⟨"second", 150 + 100⟩, 1) := by
  have h := token_reuse_and_refresh
    (fun t : Nat => if t < 100 then MsalResult.mk (some "first") (some 100)
        none
      else MsalResult.mk (some "second") (some 100) none)
    0 50 150 100 100 "first" "second" rfl rfl (by decide) (by decide) rfl rfl
    (by decide)
  exact ⟨rfl, by decide, by decide, by decide, h.2.2.1⟩

end NkAzureBlobber
